import Mathlib

/-!
Verification of the pi-monitor repository: a shallow embedding of the
ST7789 display driver, the CST816D touch driver, the configuration-driven
UI renderer and the touch/sleep state machine, together with theorems
settling the specification claims.

Conventions of the embedding:
* numpy `uint8` arithmetic is modelled on `Nat` with explicit `% 256`
  where the source operates on 8-bit arrays;
* Python exceptions are modelled by `Except String`; an uncaught
  exception is a propagated `Except.error`;
* Python `%` on `int` is modelled by `Int.emod` (identical for a
  positive modulus) guarded by the `ZeroDivisionError` case;
* hardware bus reads are passed in as `Except`-valued inputs, and the
  byte streams a function writes to the bus are returned as lists.
-/

namespace PiMonitor

/-- Modelled from the spec: `src/constants.py` is imported by monitor.py and
ui.py but is absent from the sources; the spec (§3, §4.4) fixes the logical
landscape width at 320, and `main.py` lines 17-18 carry the same values. -/
def LCD_WIDTH : Nat := 320

/-- Modelled from the spec: logical landscape height, spec §3 (320×240)
and `main.py` line 18. -/
def LCD_HEIGHT : Nat := 240

/-- Modelled from the spec: title bar height used by the renderer;
`main.py` line 97 fixes it at 40. -/
def TITLE_BAR_HEIGHT : Nat := 40

/-- `st7789.__init__`: native panel width (`self.width = 240`). -/
def nativeWidth : Nat := 240

/-- `st7789.__init__`: native panel height (`self.height = 320`). -/
def nativeHeight : Nat := 320

/-- The two RGB565 bytes `show_image` produces for one RGB pixel
(display.py lines 325-326).  numpy `uint8` ops wrap modulo 256:
high byte `(r & 0xF8) + (g >> 5)`, low byte `((g << 3) & 0xE0) + (b >> 3)`. -/
def rgb565 (p : Nat × Nat × Nat) : List Nat :=
  [((p.1 &&& 0xF8) + (p.2.1 >>> 5)) % 256,
   ((((p.2.1 <<< 3) % 256) &&& 0xE0) + (p.2.2 >>> 3)) % 256]

/-- Row-major flattening of one image row into RGB565 bytes. -/
def encodeRow : List (Nat × Nat × Nat) → List Nat
  | [] => []
  | p :: ps => rgb565 p ++ encodeRow ps

/-- Row-major flattening of the whole image, as `pix.flatten()` does. -/
def encodeRows : List (List (Nat × Nat × Nat)) → List Nat
  | [] => []
  | row :: rest => encodeRow row ++ encodeRows rest

/-- `st7789.show_image` (display.py lines 302-335), modelled as the byte
stream written to the panel: raises `ValueError` unless the image is
320×240 (landscape), otherwise converts to RGB565 and streams the bytes
(chunking at 4096 preserves the stream). -/
def showImage (img : List (List (Nat × Nat × Nat))) : Except String (List Nat) :=
  let imheight := img.length
  let imwidth := (img.headD []).length
  if imwidth = nativeHeight ∧ imheight = nativeWidth then
    Except.ok (encodeRows img)
  else
    Except.error "ValueError"

/-- The per-pixel byte pair in the form the specification states it:
high byte `(R & 0xF8) | (G >> 5)`, low byte `((G << 3) & 0xE0) | (B >> 3)`. -/
def specPixelBytes (p : Nat × Nat × Nat) : List Nat :=
  [(p.1 &&& 0xF8) ||| (p.2.1 >>> 5),
   ((p.2.1 <<< 3) &&& 0xE0) ||| (p.2.2 >>> 3)]

/-- Whole-image encoding in the specification's form. -/
def specEncodeRows : List (List (Nat × Nat × Nat)) → List Nat
  | [] => []
  | row :: rest => row.flatMap specPixelBytes ++ specEncodeRows rest

/-- One word written on the display bus: a command byte (DC low) or a
data byte (DC high). -/
inductive BusWord where
  | cmd (b : Nat)
  | dat (b : Nat)
deriving Repr, DecidableEq

/-- `st7789.set_windows` (display.py lines 250-263): the CASET/RASET/RAMWR
byte sequence for a given addressing window. -/
def setWindowsBus (Xstart Ystart Xend Yend : Nat) : List BusWord :=
  [BusWord.cmd 0x2A,
   BusWord.dat (Xstart >>> 8), BusWord.dat (Xstart &&& 0xff),
   BusWord.dat (Xend >>> 8), BusWord.dat (Xend &&& 0xff),
   BusWord.cmd 0x2B,
   BusWord.dat (Ystart >>> 8), BusWord.dat (Ystart &&& 0xff),
   BusWord.dat (Yend >>> 8), BusWord.dat (Yend &&& 0xff),
   BusWord.cmd 0x2C]

/-- The window arguments `st7789.clear` passes to `set_windows`
(display.py line 340): `(0, 0, self.width, self.height)`. -/
def clearWindow : Nat × Nat × Nat × Nat := (0, 0, nativeWidth, nativeHeight)

/-- The window arguments `st7789.show_image` passes to `set_windows`
(display.py line 330): `(0, 0, self.height - 1, self.width - 1)`. -/
def showImageWindow : Nat × Nat × Nat × Nat :=
  (0, 0, nativeHeight - 1, nativeWidth - 1)

/-- Python list subscript on a nonnegative index: `l[i]` raises
`IndexError` out of range. -/
def pyIndex {α : Type} (l : List α) (i : Nat) : Except String α :=
  match l.get? i with
  | some x => Except.ok x
  | none => Except.error "IndexError"

/-- Python `a % b` on ints: `ZeroDivisionError` for `b = 0`, otherwise the
floor modulus, which for a positive modulus is `Int.emod`. -/
def pymod (a b : Int) : Except String Int :=
  if b = 0 then Except.error "ZeroDivisionError" else Except.ok (a % b)

/-- State of the `cst816d` touch driver: the two-slot coordinate buffer
and the pending point count (display.py lines 352-353). -/
structure TouchState where
  coordinates : List (Nat × Nat)
  pointCount : Nat
deriving Repr, DecidableEq

/-- In-bounds write `coordinates[i] = xy`; Python raises `IndexError`
past the end of the two-slot list. -/
def setCoord (coords : List (Nat × Nat)) (i : Nat) (xy : Nat × Nat) :
    Except String (List (Nat × Nat)) :=
  if i < coords.length then Except.ok (coords.set i xy)
  else Except.error "IndexError"

/-- Decoding of point `i` from the coordinate block (display.py lines
383-384): 12-bit values `((buf[i*6] & 0x0f) << 8) + buf[i*6+1]` and
`((buf[i*6+2] & 0x0f) << 8) + buf[i*6+3]`. -/
def decodePoint (buf : List Nat) (i : Nat) : Except String (Nat × Nat) := do
  let b0 ← pyIndex buf (i * 6)
  let b1 ← pyIndex buf (i * 6 + 1)
  let b2 ← pyIndex buf (i * 6 + 2)
  let b3 ← pyIndex buf (i * 6 + 3)
  return (((b0 &&& 0x0f) <<< 8) + b1, ((b2 &&& 0x0f) <<< 8) + b3)

/-- The `for i in range(self.point_count)` decode loop of
`read_touch_data`: remaining iteration count in the last argument. -/
def decodeRec (buf : List Nat) :
    List (Nat × Nat) → Nat → Nat → Except String (List (Nat × Nat))
  | coords, _, 0 => Except.ok coords
  | coords, i, n + 1 => do
    let xy ← decodePoint buf i
    let coords2 ← setCoord coords i xy
    decodeRec buf coords2 (i + 1) n

/-- `cst816d.read_touch_data` (display.py lines 368-384).  The two
register reads are supplied as `Except`-valued inputs (`read_bytes` has
no exception handler, so a bus error propagates).  A zero/empty count
read leaves the state untouched; otherwise the two coordinate slots are
zeroed and the reported points are decoded into them. -/
def readTouchData (t : TouchState) (busCount : Except String (List Nat))
    (busXY : Nat → Except String (List Nat)) : Except String TouchState :=
  match busCount with
  | Except.error e => Except.error e
  | Except.ok buf =>
    match buf with
    | [] => Except.ok t
    | b0 :: _ =>
      if b0 = 0 then Except.ok t
      else
        match busXY (6 * b0) with
        | Except.error e => Except.error e
        | Except.ok buf2 =>
          let zeroed : List (Nat × Nat) := [(0, 0), (0, 0)]
          match buf2 with
          | [] => Except.ok { pointCount := b0, coordinates := zeroed }
          | _ :: _ =>
            match decodeRec buf2 zeroed 0 b0 with
            | Except.error e => Except.error e
            | Except.ok coords =>
              Except.ok { pointCount := b0, coordinates := coords }

/-- `cst816d.get_touch_xy` (display.py lines 386-396): returns the
pending count and coordinate list, clearing the count. -/
def getTouchXY (t : TouchState) : TouchState × Nat × List (Nat × Nat) :=
  let point := t.pointCount
  let t2 : TouchState := { t with pointCount := 0 }
  if point ≠ 0 then (t2, point, t2.coordinates) else (t2, 0, [])

/-- A loaded font; only its pixel size is observable to the renderer. -/
structure Fnt where
  size : Nat
deriving Repr, DecidableEq

/-- One widget entry of a screen's `widgets` list (config.yaml dict);
fields are `Option`s because the source reads them with `.get` defaults.
Data values are modelled as their rendered strings. -/
structure WidgetCfg where
  wtype : Option String
  position : Int × Int
  label : Option String
  color : Option String
  labelColor : Option String
  dataColor : Option String
  dataSource : Option String
  font : Option String
  dataXOffset : Option Int
  template : Option String
deriving Repr, DecidableEq

/-- One entry of the `screens` configuration list. -/
structure ScreenCfg where
  stype : Option String
  title : Option String
  color : Option String
  widgets : List WidgetCfg
  imagePath : Option String
deriving Repr, DecidableEq

/-- One PIL drawing call recorded by the renderer. -/
inductive DrawOp where
  | text (pos : Int × Int) (content : String) (font : Option Fnt) (fill : String)
  | rect (p1 p2 : Int × Int) (fill : String)
  | polygon (pts : List (Int × Int)) (fill : String)
deriving Repr, DecidableEq

/-- A rendered frame: dimensions, background color, and the drawing
calls painted onto it in order. -/
structure Frame where
  width : Nat
  height : Nat
  background : String
  ops : List DrawOp
deriving Repr, DecidableEq

/-- `UIDrawer._draw_widget_line_item` (ui.py lines 21-34). -/
def drawWidgetLineItem (colors : String → Option String)
    (fonts : String → Option Fnt) (getData : Option String → String)
    (cfg : WidgetCfg) : List DrawOp :=
  let defaultColor := (colors "widget_default").getD "WHITE"
  let fallbackColor := cfg.color.getD defaultColor
  let labelColor := cfg.labelColor.getD fallbackColor
  let dataColor := cfg.dataColor.getD fallbackColor
  let value := getData cfg.dataSource
  let fnt := fonts (cfg.font.getD "medium")
  [DrawOp.text cfg.position (cfg.label.getD "") fnt labelColor,
   DrawOp.text (cfg.position.1 + cfg.dataXOffset.getD 140, cfg.position.2)
     value fnt dataColor]

/-- `UIDrawer._draw_widget_dynamic_text` (ui.py lines 36-43); Python
`template.format(data=value)` is modelled as substitution of the
`\x7bdata\x7d` slot. -/
def drawWidgetDynamicText (colors : String → Option String)
    (fonts : String → Option Fnt) (getData : Option String → String)
    (cfg : WidgetCfg) : List DrawOp :=
  let widgetColor := cfg.color.getD ((colors "widget_default").getD "WHITE")
  let value := getData cfg.dataSource
  let text := (cfg.template.getD "{data}").replace "{data}" value
  let fnt := fonts (cfg.font.getD "medium")
  [DrawOp.text cfg.position text fnt widgetColor]

/-- `UIDrawer._draw_widget_static_text` (ui.py lines 45-51). -/
def drawWidgetStaticText (colors : String → Option String)
    (fonts : String → Option Fnt) (getData : Option String → String)
    (cfg : WidgetCfg) : List DrawOp :=
  let widgetColor := cfg.color.getD ((colors "widget_default").getD "WHITE")
  let value := getData cfg.dataSource
  let fnt := fonts (cfg.font.getD "medium")
  [DrawOp.text cfg.position value fnt widgetColor]

/-- The widget dispatch of `UIDrawer.draw_screen` (ui.py lines 123-127):
`getattr(self, f"_draw_widget_\x7bwidget_type\x7d", self._draw_widget_unknown)`.
The only `_draw_widget_*` methods defined on `UIDrawer` are `line_item`,
`dynamic_text`, `static_text` and `unknown`; any other tag falls back to
`_draw_widget_unknown` (ui.py lines 53-55), which logs and paints nothing. -/
def dispatchWidget (colors : String → Option String)
    (fonts : String → Option Fnt) (getData : Option String → String)
    (cfg : WidgetCfg) : List DrawOp :=
  let t := cfg.wtype.getD "unknown"
  if t = "line_item" then drawWidgetLineItem colors fonts getData cfg
  else if t = "dynamic_text" then drawWidgetDynamicText colors fonts getData cfg
  else if t = "static_text" then drawWidgetStaticText colors fonts getData cfg
  else []

/-- `UIDrawer._draw_base_ui` (ui.py lines 57-66): the two navigation
arrows in the title bar. -/
def drawBaseUI (colors : String → Option String) : List DrawOp :=
  let navColor := (colors "nav_buttons").getD "WHITE"
  let yc : Int := (TITLE_BAR_HEIGHT : Int) / 2
  let leftTip : Int := 10
  let rightTip : Int := (LCD_WIDTH : Int) - 10
  [DrawOp.polygon [(leftTip, yc), (leftTip + 16, yc - 8), (leftTip + 16, yc + 8)]
     navColor,
   DrawOp.polygon [(rightTip, yc), (rightTip - 16, yc - 8), (rightTip - 16, yc + 8)]
     navColor]

/-- The `for widget_config in screen_config.get('widgets', [])` loop. -/
def drawWidgets (colors : String → Option String) (fonts : String → Option Fnt)
    (getData : Option String → String) : List WidgetCfg → List DrawOp
  | [] => []
  | w :: ws =>
    dispatchWidget colors fonts getData w ++ drawWidgets colors fonts getData ws

/-- Python list subscript with negative-index wrap-around. -/
def pyListIndex {α : Type} (l : List α) (i : Int) : Except String α :=
  let j := if i < 0 then i + l.length else i
  if 0 ≤ j ∧ j < (l.length : Int) then
    match l.get? j.toNat with
    | some x => Except.ok x
    | none => Except.error "IndexError"
  else Except.error "IndexError"

/-- `UIDrawer.draw_screen` (ui.py lines 96-129), modelled as the frame it
returns.  The hero branch delegates to the external image-loading
collaborator `heroRender`.  Looking up the `large` font's `.size` on a
missing font raises `AttributeError` in the source, hence the `Except`. -/
def drawScreen (colors : String → Option String) (fonts : String → Option Fnt)
    (getData : Option String → String) (heroRender : ScreenCfg → Frame)
    (screens : List ScreenCfg) (idx : Int) : Except String Frame :=
  match screens with
  | [] =>
    Except.ok { width := LCD_WIDTH, height := LCD_HEIGHT, background := "BLACK",
                ops := [DrawOp.text (10, 10) "Error: No screens in config.yaml"
                  (fonts "medium") "RED"] }
  | _ :: _ =>
    match pyListIndex screens idx with
    | Except.error e => Except.error e
    | Except.ok sc =>
      if sc.stype = some "hero" then Except.ok (heroRender sc)
      else
        let contentBg := (colors "content_background").getD "BLACK"
        let titleBg := (colors "title_background").getD "BLACK"
        match fonts "large" with
        | none => Except.error "AttributeError"
        | some largeFnt =>
          let titleColor := sc.color.getD ((colors "title_text").getD "WHITE")
          let titleY : Int := ((TITLE_BAR_HEIGHT : Int) - largeFnt.size) / 2
          Except.ok { width := LCD_WIDTH, height := LCD_HEIGHT,
                      background := contentBg,
                      ops :=
                        DrawOp.rect (0, 0)
                          ((LCD_WIDTH : Int), (TITLE_BAR_HEIGHT : Int)) titleBg
                        :: (drawBaseUI colors
                          ++ [DrawOp.text (40, titleY) (sc.title.getD "")
                                (some largeFnt) titleColor]
                          ++ drawWidgets colors fonts getData sc.widgets) }

/-- `ServerMonitor` application state (monitor.py lines 26-34); the
`backlight` field stands for the display's PWM duty cycle. -/
structure MonState where
  currentScreen : Int
  isSleeping : Bool
  lastActivity : Nat
  backlight : Nat
  screens : List ScreenCfg
deriving Repr, DecidableEq

/-- `ServerMonitor.wake_up` (monitor.py lines 150-155). -/
def wakeUp (s : MonState) (now : Nat) : MonState :=
  if s.isSleeping then
    { s with isSleeping := false, backlight := 100, lastActivity := now }
  else s

/-- `ServerMonitor.sleep_display` (monitor.py lines 144-148). -/
def sleepDisplay (s : MonState) : MonState :=
  if !s.isSleeping then { s with isSleeping := true, backlight := 0 } else s

/-- The body of `ServerMonitor.handle_input` after the touch poll
(monitor.py lines 121-142), taking the `(point_count, coordinates)` pair
`get_touch_xy` returned.  A touch while sleeping only wakes up and
returns; otherwise the activity timer resets and the touch's native `y`
(the landscape `ui_x`) is classified against the thirds of `LCD_WIDTH`,
with Python's `%` raising `ZeroDivisionError` on an empty screen list. -/
def handleInputCore (s : MonState) (pointCount : Nat)
    (coords : List (Nat × Nat)) (now : Nat) : Except String MonState :=
  if pointCount > 0 then
    if s.isSleeping then
      Except.ok (wakeUp s now)
    else
      let s1 : MonState := { s with lastActivity := now }
      match pyIndex coords 0 with
      | Except.error e => Except.error e
      | Except.ok c0 =>
        let uiX := c0.2
        if uiX < LCD_WIDTH / 3 then
          match pymod (s1.currentScreen - 1) (s1.screens.length : Int) with
          | Except.error e => Except.error e
          | Except.ok m => Except.ok { s1 with currentScreen := m }
        else if uiX > LCD_WIDTH - LCD_WIDTH / 3 then
          match pymod (s1.currentScreen + 1) (s1.screens.length : Int) with
          | Except.error e => Except.error e
          | Except.ok m => Except.ok { s1 with currentScreen := m }
        else Except.ok s1
  else Except.ok s

/-- `ServerMonitor.handle_input` end to end (monitor.py lines 116-142):
the touch poll (`read_touch_data`, `get_touch_xy`) followed by the state
logic.  No `try`/`except` appears anywhere on this path, so a bus read
failure propagates. -/
def handleInputFull (s : MonState) (t : TouchState)
    (busCount : Except String (List Nat))
    (busXY : Nat → Except String (List Nat)) (now : Nat) :
    Except String (MonState × TouchState) :=
  match readTouchData t busCount busXY with
  | Except.error e => Except.error e
  | Except.ok t1 =>
    let r := getTouchXY t1
    match handleInputCore s r.2.1 r.2.2 now with
    | Except.error e => Except.error e
    | Except.ok s2 => Except.ok (s2, r.1)

/-- Touch zones (coordinate mapper of spec §4.4), with the exact
conditions of monitor.py lines 134-141. -/
inductive Zone where
  | left
  | center
  | right
deriving Repr, DecidableEq

/-- The zone classification `handle_input` performs inline (monitor.py
lines 134-141): `Left` if `ui_x < LCD_WIDTH // 3`, `Right` if
`ui_x > LCD_WIDTH - LCD_WIDTH // 3`, `Center` otherwise. -/
def classifyZone (uiX : Nat) : Zone :=
  if uiX < LCD_WIDTH / 3 then Zone.left
  else if uiX > LCD_WIDTH - LCD_WIDTH / 3 then Zone.right
  else Zone.center

/-- `n` consecutive `handle_input` invocations fed the same poll result. -/
def iterHandle (pointCount : Nat) (coords : List (Nat × Nat)) (now : Nat) :
    Nat → MonState → Except String MonState
  | 0, s => Except.ok s
  | n + 1, s =>
    match handleInputCore s pointCount coords now with
    | Except.error e => Except.error e
    | Except.ok s2 => iterHandle pointCount coords now n s2

/-- An all-red 320×240 test image. -/
def c1Image : List (List (Nat × Nat × Nat)) :=
  List.replicate 240 (List.replicate 320 (255, 0, 0))

/-- A monitor state used as concrete input: screen 0, awake,
three empty screens configured. -/
def emptyScreen : ScreenCfg :=
  { stype := none, title := none, color := none, widgets := [], imagePath := none }

/-- Concrete awake monitor state with three screens, screen index 1. -/
def awake3 : MonState :=
  { currentScreen := 1, isSleeping := false, lastActivity := 0, backlight := 100,
    screens := [emptyScreen, emptyScreen, emptyScreen] }

/-- Concrete sleeping monitor state with three screens, screen index 2. -/
def asleep3 : MonState :=
  { currentScreen := 2, isSleeping := true, lastActivity := 0, backlight := 0,
    screens := [emptyScreen, emptyScreen, emptyScreen] }

/-- Concrete awake monitor state with an empty screens list. -/
def awakeNoScreens : MonState :=
  { currentScreen := 0, isSleeping := false, lastActivity := 0, backlight := 100,
    screens := [] }

/-- Touch driver state as initialised (display.py line 352-353). -/
def touch0 : TouchState := { coordinates := [(0, 0), (0, 0)], pointCount := 0 }

/-- A coordinate block whose first point decodes to (4095, 256):
bytes `0x0f 0xff` for x and `0x01 0x00` for y. -/
def touchBlock4095 : List Nat := [0x0f, 0xff, 0x01, 0x00, 0, 0]

/-- The text content of a drawing call, if it is a text call. -/
def textContent : DrawOp → Option String
  | DrawOp.text _ s _ _ => some s
  | _ => none

/-- A colors config with no entries (every role falls to its default). -/
def c5Colors : String → Option String := fun _ => none

/-- A fonts table resolving every name to a 16-pixel font. -/
def c5Fonts : String → Option Fnt := fun _ => some { size := 16 }

/-- A data-source oracle returning the same rendered value everywhere. -/
def c5GetData : Option String → String := fun _ => "42%"

/-- A trivial hero-screen collaborator (never reached in these claims). -/
def c5Hero : ScreenCfg → Frame :=
  fun _ => { width := 0, height := 0, background := "BLACK", ops := [] }

/-- A `line_item_with_sub` widget as config.yaml would declare it. -/
def c5Widget : WidgetCfg :=
  { wtype := some "line_item_with_sub", position := (10, 60),
    label := some "RAM:", color := none, labelColor := none, dataColor := none,
    dataSource := some "get_ram_info", font := none, dataXOffset := none,
    template := none }

/-- A standard screen containing only the `line_item_with_sub` widget. -/
def c5Screen : ScreenCfg :=
  { stype := none, title := some "System", color := none,
    widgets := [c5Widget], imagePath := none }

/-! ## Theorems -/

/-- Naturals with disjoint bits add without carries, so their sum is
their bitwise or. -/
theorem add_eq_or_of_and_eq_zero (a : Nat) :
    ∀ b : Nat, a &&& b = 0 → a + b = a ||| b := by
  induction a using Nat.strong_induction_on with
  | _ a ih =>
    intro b h
    rcases Nat.eq_zero_or_pos a with rfl | ha
    · simp
    · have hdiv : a / 2 &&& b / 2 = 0 := by
        rw [← Nat.and_div_two, h]
      have hih := ih (a / 2) (Nat.div_lt_self ha (by decide)) (b / 2) hdiv
      have h1 := Nat.div_add_mod a 2
      have h2 := Nat.div_add_mod b 2
      have h3 := Nat.div_add_mod (a ||| b) 2
      have h4 : (a ||| b) / 2 = a / 2 ||| b / 2 := Nat.or_div_two
      have h5 : (a ||| b) % 2 = 1 ↔ a % 2 = 1 ∨ b % 2 = 1 := Nat.or_mod_two_eq_one
      have h6 : ¬(a % 2 = 1 ∧ b % 2 = 1) := by
        intro hc
        have hcc := Nat.and_mod_two_eq_one.mpr hc
        rw [h] at hcc
        simp at hcc
      have h7 : a % 2 < 2 := Nat.mod_lt _ (by decide)
      have h8 : b % 2 < 2 := Nat.mod_lt _ (by decide)
      have h9 : (a ||| b) % 2 < 2 := Nat.mod_lt _ (by decide)
      omega

/-- A number whose low `n` bits are clear is bit-disjoint from any
number below `2 ^ n`. -/
theorem and_mask_eq_zero_of_lt {m x : Nat} (n : Nat) (hm : m &&& (2 ^ n - 1) = 0)
    (hx : x < 2 ^ n) : m &&& x = 0 := by
  have hx2 : x &&& (2 ^ n - 1) = x := by
    rw [Nat.and_pow_two_sub_one_eq_mod]
    exact Nat.mod_eq_of_lt hx
  calc m &&& x = m &&& (x &&& (2 ^ n - 1)) := by rw [hx2]
    _ = m &&& ((2 ^ n - 1) &&& x) := by rw [Nat.land_comm x]
    _ = (m &&& (2 ^ n - 1)) &&& x := by rw [Nat.land_assoc]
    _ = 0 := by rw [hm]; simp

/-- On 8-bit channels the wrapping adds of the source equal the
bitwise-or form the specification states. -/
theorem rgb565_eq_spec (p : Nat × Nat × Nat) (hr : p.1 < 256) (hg : p.2.1 < 256)
    (hb : p.2.2 < 256) : rgb565 p = specPixelBytes p := by
  obtain ⟨r, g, b⟩ := p
  have hr2 : r < 256 := hr
  have hg2 : g < 256 := hg
  have hb2 : b < 256 := hb
  simp only [rgb565, specPixelBytes]
  have hg5 : g >>> 5 < 8 := by
    rw [Nat.shiftRight_eq_div_pow]
    omega
  have hb3 : b >>> 3 < 32 := by
    rw [Nat.shiftRight_eq_div_pow]
    omega
  have hhi : (r &&& 248) &&& (g >>> 5) = 0 := by
    refine and_mask_eq_zero_of_lt 3 ?_ hg5
    rw [Nat.land_assoc, show ((248 : Nat) &&& (2 ^ 3 - 1)) = 0 from by decide,
      Nat.and_zero]
  have hhi2 : (r &&& 248) + (g >>> 5) < 256 := by
    have := Nat.and_le_right (n := r) (m := 248)
    omega
  have e1 : ((r &&& 248) + (g >>> 5)) % 256 = (r &&& 248) ||| (g >>> 5) := by
    rw [Nat.mod_eq_of_lt hhi2]
    exact add_eq_or_of_and_eq_zero _ _ hhi
  have hmod : (g <<< 3) % 256 &&& 224 = (g <<< 3) &&& 224 := by
    have h255 : (g <<< 3) % 256 = (g <<< 3) &&& 255 := by
      have h8 := Nat.and_pow_two_sub_one_eq_mod (g <<< 3) 8
      norm_num at h8
      omega
    rw [h255, Nat.land_assoc, show ((255 : Nat) &&& 224) = 224 from by decide]
  have hlo : ((g <<< 3) &&& 224) &&& (b >>> 3) = 0 := by
    refine and_mask_eq_zero_of_lt 5 ?_ hb3
    rw [Nat.land_assoc, show ((224 : Nat) &&& (2 ^ 5 - 1)) = 0 from by decide,
      Nat.and_zero]
  have hlo2 : ((g <<< 3) &&& 224) + (b >>> 3) < 256 := by
    have := Nat.and_le_right (n := g <<< 3) (m := 224)
    omega
  have e2 : (((g <<< 3) % 256 &&& 224) + (b >>> 3)) % 256 =
      ((g <<< 3) &&& 224) ||| (b >>> 3) := by
    rw [hmod, Nat.mod_eq_of_lt hlo2]
    exact add_eq_or_of_and_eq_zero _ _ hlo
  rw [e1, e2]

/-- Each pixel contributes exactly two bytes. -/
theorem encodeRow_length (row : List (Nat × Nat × Nat)) :
    (encodeRow row).length = 2 * row.length := by
  induction row with
  | nil => rfl
  | cons p ps ih =>
    simp [encodeRow, rgb565, ih]
    omega

/-- Row encoding agrees with the specification's per-pixel form on
8-bit input. -/
theorem encodeRow_eq_spec (row : List (Nat × Nat × Nat))
    (h : ∀ p ∈ row, p.1 < 256 ∧ p.2.1 < 256 ∧ p.2.2 < 256) :
    encodeRow row = row.flatMap specPixelBytes := by
  induction row with
  | nil => rfl
  | cons p ps ih =>
    have hp := h p (List.mem_cons_self p ps)
    simp only [encodeRow, List.flatMap_cons]
    rw [rgb565_eq_spec p hp.1 hp.2.1 hp.2.2,
      ih (fun q hq => h q (List.mem_cons_of_mem p hq))]

/-- Image encoding agrees with the specification's form on 8-bit input. -/
theorem encodeRows_eq_spec (img : List (List (Nat × Nat × Nat)))
    (h : ∀ row ∈ img, ∀ p ∈ row, p.1 < 256 ∧ p.2.1 < 256 ∧ p.2.2 < 256) :
    encodeRows img = specEncodeRows img := by
  induction img with
  | nil => rfl
  | cons row rest ih =>
    simp only [encodeRows, specEncodeRows]
    rw [encodeRow_eq_spec row (h row (List.mem_cons_self row rest)),
      ih (fun r hr => h r (List.mem_cons_of_mem row hr))]

/-- Each 320-pixel row contributes 640 bytes. -/
theorem encodeRows_length (img : List (List (Nat × Nat × Nat)))
    (hw : ∀ row ∈ img, row.length = 320) :
    (encodeRows img).length = img.length * 640 := by
  induction img with
  | nil => rfl
  | cons row rest ih =>
    simp only [encodeRows, List.length_append, List.length_cons]
    rw [encodeRow_length, hw row (List.mem_cons_self row rest),
      ih (fun r hr => hw r (List.mem_cons_of_mem row hr))]
    omega

/-- C1: for every 320×240 RGB image, `show_image` produces exactly
width×height×2 bytes, two bytes per pixel in big-endian RGB565 order
with high byte `(R & 0xF8) | (G >> 5)` and low byte
`((G << 3) & 0xE0) | (B >> 3)`; a pure-red pixel yields high byte 0xF8
(top five bits set). -/
theorem c1_show_image_rgb565 (img : List (List (Nat × Nat × Nat)))
    (hh : img.length = 240)
    (hw : ∀ row ∈ img, row.length = 320)
    (hc : ∀ row ∈ img, ∀ p ∈ row, p.1 < 256 ∧ p.2.1 < 256 ∧ p.2.2 < 256) :
    showImage img = Except.ok (encodeRows img) ∧
    (encodeRows img).length = 320 * 240 * 2 ∧
    encodeRows img = specEncodeRows img ∧
    rgb565 (255, 0, 0) = [0xF8, 0x00] := by
  refine ⟨?_, ?_, encodeRows_eq_spec img hc, by decide⟩
  · match img, hh with
    | row :: rest, hh =>
      have hrow : row.length = 320 := hw row (List.mem_cons_self row rest)
      simp only [showImage, List.headD_cons]
      rw [if_pos]
      exact ⟨hrow, hh⟩
  · rw [encodeRows_length img hw, hh]

/-- C1 witness: the all-red 320×240 image satisfies the hypotheses and
the conclusion. -/
theorem c1_show_image_rgb565_witness :
    (c1Image.length = 240 ∧ (∀ row ∈ c1Image, row.length = 320) ∧
      (∀ row ∈ c1Image, ∀ p ∈ row, p.1 < 256 ∧ p.2.1 < 256 ∧ p.2.2 < 256)) ∧
    (showImage c1Image = Except.ok (encodeRows c1Image) ∧
      (encodeRows c1Image).length = 320 * 240 * 2 ∧
      encodeRows c1Image = specEncodeRows c1Image ∧
      rgb565 (255, 0, 0) = [0xF8, 0x00]) := by
  have hh : c1Image.length = 240 := List.length_replicate 240 _
  have hw : ∀ row ∈ c1Image, row.length = 320 := by
    intro row hr
    rw [List.eq_of_mem_replicate hr]
    exact List.length_replicate 320 _
  have hc : ∀ row ∈ c1Image, ∀ p ∈ row, p.1 < 256 ∧ p.2.1 < 256 ∧ p.2.2 < 256 := by
    intro row hr p hp
    rw [List.eq_of_mem_replicate hr] at hp
    rw [List.eq_of_mem_replicate hp]
    decide
  exact ⟨⟨hh, hw, hc⟩, c1_show_image_rgb565 c1Image hh hw hc⟩

/-- C10: `clear` sets the addressing window to `(0, 0, 240, 320)` — one
past the last native column 239 and row 319 — while `show_image` sets
`(0, 0, 319, 239)`; the two bulk-write paths address different windows. -/
theorem c10_clear_window_exceeds_bounds :
    clearWindow = (0, 0, 240, 320) ∧
    showImageWindow = (0, 0, 319, 239) ∧
    nativeWidth - 1 < clearWindow.2.2.1 ∧
    nativeHeight - 1 < clearWindow.2.2.2 ∧
    clearWindow ≠ showImageWindow ∧
    setWindowsBus clearWindow.1 clearWindow.2.1 clearWindow.2.2.1
        clearWindow.2.2.2 ≠
      setWindowsBus showImageWindow.1 showImageWindow.2.1
        showImageWindow.2.2.1 showImageWindow.2.2.2 := by
  decide

/-- C3: a touch while asleep only wakes up: `handle_input` returns right
after `wake_up`, leaving `current_screen` untouched whatever the touch
coordinates were, with backlight 100 and the activity timer reset. -/
theorem c3_sleep_touch_wakes_without_nav (s : MonState) (pc : Nat)
    (coords : List (Nat × Nat)) (now : Nat)
    (hs : s.isSleeping = true) (hpc : 0 < pc) :
    handleInputCore s pc coords now =
      Except.ok { s with isSleeping := false, backlight := 100,
                         lastActivity := now } := by
  simp [handleInputCore, wakeUp, hs, hpc]

/-- C3 witness: a sleeping state touched in the left zone wakes with its
screen index intact. -/
theorem c3_sleep_touch_wakes_without_nav_witness :
    asleep3.isSleeping = true ∧ 0 < 1 ∧
    handleInputCore asleep3 1 [(0, 50)] 9 =
      Except.ok { asleep3 with isSleeping := false, backlight := 100,
                               lastActivity := 9 } :=
  ⟨rfl, by decide, c3_sleep_touch_wakes_without_nav asleep3 1 [(0, 50)] 9 rfl
    (by decide)⟩

/-- C4: the inline zone classification of `handle_input` is `Left` iff
`ui_x < 106`, `Right` iff `ui_x > 214`, `Center` otherwise; both
comparisons are strict, so 50 is Left, 160 Center, 300 Right, and the
boundary values 106 and 214 are Center. -/
theorem c4_zone_classification :
    (∀ uiX, classifyZone uiX = Zone.left ↔ uiX < 106) ∧
    (∀ uiX, classifyZone uiX = Zone.right ↔ 214 < uiX) ∧
    (∀ uiX, classifyZone uiX = Zone.center ↔ 106 ≤ uiX ∧ uiX ≤ 214) ∧
    LCD_WIDTH / 3 = 106 ∧ LCD_WIDTH - LCD_WIDTH / 3 = 214 ∧
    classifyZone 50 = Zone.left ∧ classifyZone 160 = Zone.center ∧
    classifyZone 300 = Zone.right ∧ classifyZone 106 = Zone.center ∧
    classifyZone 214 = Zone.center := by
  refine ⟨?_, ?_, ?_, by decide, by decide, by decide, by decide, by decide,
    by decide, by decide⟩ <;>
  · intro uiX
    simp only [classifyZone, LCD_WIDTH]
    norm_num
    split_ifs <;> simp_all <;> omega

/-- C9: with an empty screens list, an awake-state touch in the left or
right zone reaches the unguarded `% len(self.screens_config)` and raises
`ZeroDivisionError`. -/
theorem c9_empty_screens_nav_zero_division (s : MonState) (pc x y now : Nat)
    (rest : List (Nat × Nat)) (hempty : s.screens = [])
    (hawake : s.isSleeping = false) (hpc : 0 < pc)
    (hzone : y < 106 ∨ 214 < y) :
    handleInputCore s pc ((x, y) :: rest) now =
      Except.error "ZeroDivisionError" := by
  have hlen : (s.screens.length : Int) = 0 := by rw [hempty]; rfl
  rcases hzone with hy | hy
  · have h1 : y < LCD_WIDTH / 3 := by simp only [LCD_WIDTH]; omega
    simp [handleInputCore, hawake, hpc, pyIndex, pymod, h1, hlen]
  · have h1 : ¬ y < LCD_WIDTH / 3 := by simp only [LCD_WIDTH]; omega
    have h2 : LCD_WIDTH - LCD_WIDTH / 3 < y := by simp only [LCD_WIDTH]; omega
    simp [handleInputCore, hawake, hpc, pyIndex, pymod, h1, h2, hlen]

/-- C9 witness: the zero-screen awake state with a left-zone touch. -/
theorem c9_empty_screens_nav_zero_division_witness :
    awakeNoScreens.screens = [] ∧ awakeNoScreens.isSleeping = false ∧
    0 < 1 ∧ ((50 : Nat) < 106 ∨ 214 < 50) ∧
    handleInputCore awakeNoScreens 1 [(0, 50)] 3 =
      Except.error "ZeroDivisionError" :=
  ⟨rfl, rfl, by decide, Or.inl (by decide),
    c9_empty_screens_nav_zero_division awakeNoScreens 1 0 50 3 [] rfl rfl
      (by decide) (Or.inl (by decide))⟩

/-- C7 counterexample: a failing count-register read propagates out of
`handle_input` as the very same error instead of being treated as "no
touch". -/
theorem c7_counterexample_bus_error_propagates :
    handleInputFull awake3 touch0 (Except.error "IOError")
      (fun _ => Except.ok []) 0 = Except.error "IOError" := rfl

/-- C7 amended: `read_bytes`, `read_touch_data` and `handle_input` have
no exception handler, so any bus read failure propagates unchanged out of
`handle_input` (and the main loop catches only `KeyboardInterrupt`). -/
theorem c7_amended_bus_error_uncaught (s : MonState) (t : TouchState)
    (busXY : Nat → Except String (List Nat)) (now : Nat) (e : String) :
    handleInputFull s t (Except.error e) busXY now = Except.error e := rfl

/-- Reducing the left summand modulo `M` first does not change a sum
modulo `M`. -/
theorem emod_add_left_cancel (a n M : Int) : (a % M + n) % M = (a + n) % M := by
  conv_lhs => rw [Int.add_emod]
  rw [Int.emod_emod_of_dvd a dvd_rfl, ← Int.add_emod]

/-- Reducing the minuend modulo `M` first does not change a difference
modulo `M`. -/
theorem emod_sub_left_cancel (a n M : Int) : (a % M - n) % M = (a - n) % M := by
  conv_lhs => rw [Int.sub_emod]
  rw [Int.emod_emod_of_dvd a dvd_rfl, ← Int.sub_emod]

/-- One awake `handle_input` step on a right-zone touch: the screen
index becomes `(current + 1) % len(screens)` and the activity timer
resets. -/
theorem handleInputCore_right_step (s : MonState) (x y now : Nat)
    (hsl : s.isSleeping = false) (hM : s.screens.length ≠ 0) (hy : 214 < y) :
    handleInputCore s 1 [(x, y)] now =
      Except.ok { s with lastActivity := now,
                         currentScreen :=
                           (s.currentScreen + 1) % (s.screens.length : Int) } := by
  have h1 : ¬ y < LCD_WIDTH / 3 := by simp only [LCD_WIDTH]; omega
  have h2 : LCD_WIDTH - LCD_WIDTH / 3 < y := by simp only [LCD_WIDTH]; omega
  have h3 : (s.screens.length : Int) ≠ 0 := by exact_mod_cast hM
  simp [handleInputCore, hsl, pyIndex, pymod, h1, h2, h3]

/-- One awake `handle_input` step on a left-zone touch: the screen index
becomes `(current - 1) % len(screens)`. -/
theorem handleInputCore_left_step (s : MonState) (x y now : Nat)
    (hsl : s.isSleeping = false) (hM : s.screens.length ≠ 0) (hy : y < 106) :
    handleInputCore s 1 [(x, y)] now =
      Except.ok { s with lastActivity := now,
                         currentScreen :=
                           (s.currentScreen - 1) % (s.screens.length : Int) } := by
  have h1 : y < LCD_WIDTH / 3 := by simp only [LCD_WIDTH]; omega
  have h3 : (s.screens.length : Int) ≠ 0 := by exact_mod_cast hM
  simp [handleInputCore, hsl, pyIndex, pymod, h1, h3]

/-- After `k` right-zone touches the screen index is
`(start + k) % len(screens)`. -/
theorem iterHandle_right (x y now : Nat) (hy : 214 < y) :
    ∀ (k : Nat) (s : MonState), s.isSleeping = false → s.screens.length ≠ 0 →
    0 ≤ s.currentScreen → s.currentScreen < (s.screens.length : Int) →
    ∃ s2, iterHandle 1 [(x, y)] now k s = Except.ok s2 ∧
      s2.currentScreen = (s.currentScreen + k) % (s.screens.length : Int) ∧
      s2.isSleeping = false ∧ s2.screens = s.screens := by
  intro k
  induction k with
  | zero =>
    intro s h1 h2 h3 h4
    refine ⟨s, rfl, ?_, h1, rfl⟩
    rw [Int.natCast_zero, Int.add_zero, Int.emod_eq_of_lt h3 h4]
  | succ n ih =>
    intro s h1 h2 h3 h4
    have hpos : (0 : Int) < (s.screens.length : Int) := by
      have : 0 < s.screens.length := Nat.pos_of_ne_zero h2
      exact_mod_cast this
    have hstep := handleInputCore_right_step s x y now h1 h2 hy
    obtain ⟨s2, he, hc, hsl2, hscr⟩ :=
      ih { s with lastActivity := now,
                  currentScreen :=
                    (s.currentScreen + 1) % (s.screens.length : Int) }
        h1 h2 (Int.emod_nonneg _ (by omega)) (Int.emod_lt_of_pos _ hpos)
    refine ⟨s2, ?_, ?_, hsl2, hscr⟩
    · rw [iterHandle, hstep]
      exact he
    · rw [hc]
      show ((s.currentScreen + 1) % (s.screens.length : Int) + (n : Int)) %
          (s.screens.length : Int) = _
      rw [emod_add_left_cancel]
      congr 1
      push_cast
      ring

/-- After `k` left-zone touches the screen index is
`(start - k) % len(screens)`. -/
theorem iterHandle_left (x y now : Nat) (hy : y < 106) :
    ∀ (k : Nat) (s : MonState), s.isSleeping = false → s.screens.length ≠ 0 →
    0 ≤ s.currentScreen → s.currentScreen < (s.screens.length : Int) →
    ∃ s2, iterHandle 1 [(x, y)] now k s = Except.ok s2 ∧
      s2.currentScreen = (s.currentScreen - k) % (s.screens.length : Int) ∧
      s2.isSleeping = false ∧ s2.screens = s.screens := by
  intro k
  induction k with
  | zero =>
    intro s h1 h2 h3 h4
    refine ⟨s, rfl, ?_, h1, rfl⟩
    rw [Int.natCast_zero, Int.sub_zero, Int.emod_eq_of_lt h3 h4]
  | succ n ih =>
    intro s h1 h2 h3 h4
    have hpos : (0 : Int) < (s.screens.length : Int) := by
      have : 0 < s.screens.length := Nat.pos_of_ne_zero h2
      exact_mod_cast this
    have hstep := handleInputCore_left_step s x y now h1 h2 hy
    obtain ⟨s2, he, hc, hsl2, hscr⟩ :=
      ih { s with lastActivity := now,
                  currentScreen :=
                    (s.currentScreen - 1) % (s.screens.length : Int) }
        h1 h2 (Int.emod_nonneg _ (by omega)) (Int.emod_lt_of_pos _ hpos)
    refine ⟨s2, ?_, ?_, hsl2, hscr⟩
    · rw [iterHandle, hstep]
      exact he
    · rw [hc]
      show ((s.currentScreen - 1) % (s.screens.length : Int) - (n : Int)) %
          (s.screens.length : Int) = _
      rw [emod_sub_left_cancel]
      congr 1
      push_cast
      ring

/-- C2: on an `M`-screen configuration (`M ≥ 1`), `M` consecutive
right-zone navigations while awake return the screen index to its
starting value, and so do `M` consecutive left-zone navigations. -/
theorem c2_nav_wrap (s : MonState) (M x y x2 y2 now : Nat)
    (hM : s.screens.length = M) (hM1 : 1 ≤ M) (hsl : s.isSleeping = false)
    (h0 : 0 ≤ s.currentScreen) (hlt : s.currentScreen < (M : Int))
    (hy : 214 < y) (hy2 : y2 < 106) :
    (∃ s2, iterHandle 1 [(x, y)] now M s = Except.ok s2 ∧
      s2.currentScreen = s.currentScreen) ∧
    (∃ s3, iterHandle 1 [(x2, y2)] now M s = Except.ok s3 ∧
      s3.currentScreen = s.currentScreen) := by
  have hne : s.screens.length ≠ 0 := by omega
  have hlt2 : s.currentScreen < (s.screens.length : Int) := by rw [hM]; exact hlt
  constructor
  · obtain ⟨s2, he, hc, -, -⟩ :=
      iterHandle_right x y now hy M s hsl hne h0 hlt2
    refine ⟨s2, he, ?_⟩
    rw [hc, hM]
    have hrw : s.currentScreen + (M : Int) = s.currentScreen + (M : Int) * 1 := by
      ring
    rw [hrw, Int.add_mul_emod_self_left, Int.emod_eq_of_lt h0 hlt]
  · obtain ⟨s3, he, hc, -, -⟩ :=
      iterHandle_left x2 y2 now hy2 M s hsl hne h0 hlt2
    refine ⟨s3, he, ?_⟩
    rw [hc, hM]
    have hrw : s.currentScreen - (M : Int) =
        s.currentScreen + (M : Int) * (-1) := by ring
    rw [hrw, Int.add_mul_emod_self_left, Int.emod_eq_of_lt h0 hlt]

/-- C2 witness: three screens, start index 1, right touches at
`ui_x = 300` and left touches at `ui_x = 50`. -/
theorem c2_nav_wrap_witness :
    (awake3.screens.length = 3 ∧ 1 ≤ 3 ∧ awake3.isSleeping = false ∧
      0 ≤ awake3.currentScreen ∧ awake3.currentScreen < (3 : Int) ∧
      (214 : Nat) < 300 ∧ (50 : Nat) < 106) ∧
    ((∃ s2, iterHandle 1 [(0, 300)] 5 3 awake3 = Except.ok s2 ∧
      s2.currentScreen = awake3.currentScreen) ∧
    (∃ s3, iterHandle 1 [(0, 50)] 5 3 awake3 = Except.ok s3 ∧
      s3.currentScreen = awake3.currentScreen)) :=
  ⟨⟨rfl, by decide, rfl, by decide, by decide, by decide, by decide⟩,
    c2_nav_wrap awake3 3 0 300 0 50 5 rfl (by decide) rfl (by decide)
      (by decide) (by decide) (by decide)⟩

/-- C8: with an empty screens list, `draw_screen` returns a full-size
320×240 diagnostic frame carrying the error message for every index; the
index never subscripts the empty list. -/
theorem c8_empty_screens_diagnostic_frame (colors : String → Option String)
    (fonts : String → Option Fnt) (getData : Option String → String)
    (heroRender : ScreenCfg → Frame) (idx : Int) :
    ∃ f, drawScreen colors fonts getData heroRender [] idx = Except.ok f ∧
      f.width = 320 ∧ f.height = 240 ∧
      DrawOp.text (10, 10) "Error: No screens in config.yaml" (fonts "medium")
        "RED" ∈ f.ops := by
  refine ⟨_, rfl, rfl, rfl, ?_⟩
  exact List.mem_singleton.mpr rfl

/-- C5: a `line_item_with_sub` widget is dispatched to the fallback
unknown-widget handler of `UIDrawer` (no `_draw_widget_line_item_with_sub`
method exists in ui.py), so rendering paints nothing for it: neither its
label nor its main value nor a parenthesized sub-value appears among the
frame's drawing calls. -/
theorem c5_line_item_with_sub_not_painted :
    dispatchWidget c5Colors c5Fonts c5GetData c5Widget = [] ∧
    (∃ f, drawScreen c5Colors c5Fonts c5GetData c5Hero [c5Screen] 0 =
        Except.ok f ∧
      ∀ op ∈ f.ops, textContent op ≠ some "RAM:" ∧
        textContent op ≠ some "42%" ∧ textContent op ≠ some "(42%)") := by
  refine ⟨rfl, _, rfl, ?_⟩
  decide

/-- C6 counterexample: a well-formed single-point read stores the
coordinate pair (4095, 256) — the x value exceeds the native bound 239,
so `read_touch_data` does not clamp to the panel bounds. -/
theorem c6_counterexample_coord_above_panel_bound :
    readTouchData touch0 (Except.ok [1]) (fun _ => Except.ok touchBlock4095) =
      Except.ok { coordinates := [(4095, 256), (0, 0)], pointCount := 1 } ∧
    ¬ (4095 : Nat) ≤ 239 :=
  ⟨rfl, by decide⟩

/-- An `Except.ok` result of `pyIndex` is a member of the list. -/
theorem pyIndex_mem {α : Type} {l : List α} {i : Nat} {x : α}
    (h : pyIndex l i = Except.ok x) : x ∈ l := by
  unfold pyIndex at h
  cases hg : l.get? i with
  | none => rw [hg] at h; cases h
  | some y =>
    rw [hg] at h
    cases h
    exact List.get?_mem hg

/-- A decoded point is a 12-bit pair when the block's bytes are bytes. -/
theorem decodePoint_lt_4096 {buf : List Nat} (hb : ∀ x ∈ buf, x < 256)
    {i : Nat} {xy : Nat × Nat} (h : decodePoint buf i = Except.ok xy) :
    xy.1 < 4096 ∧ xy.2 < 4096 := by
  unfold decodePoint at h
  cases h0 : pyIndex buf (i * 6) with
  | error e => rw [h0] at h; cases h
  | ok b0 =>
  cases h1 : pyIndex buf (i * 6 + 1) with
  | error e => rw [h0, h1] at h; cases h
  | ok b1 =>
  cases h2 : pyIndex buf (i * 6 + 2) with
  | error e => rw [h0, h1, h2] at h; cases h
  | ok b2 =>
  cases h3 : pyIndex buf (i * 6 + 3) with
  | error e => rw [h0, h1, h2, h3] at h; cases h
  | ok b3 =>
  rw [h0, h1, h2, h3] at h
  simp only [bind, Except.bind, pure, Except.pure] at h
  cases h
  have hb1 : b1 < 256 := hb b1 (pyIndex_mem h1)
  have hb3 : b3 < 256 := hb b3 (pyIndex_mem h3)
  have m0 : b0 &&& 15 ≤ 15 := Nat.and_le_right
  have m2 : b2 &&& 15 ≤ 15 := Nat.and_le_right
  constructor
  · show ((b0 &&& 15) <<< 8) + b1 < 4096
    rw [Nat.shiftLeft_eq]
    omega
  · show ((b2 &&& 15) <<< 8) + b3 < 4096
    rw [Nat.shiftLeft_eq]
    omega

/-- The decode loop keeps every stored coordinate below 4096 when the
block's bytes are bytes. -/
theorem decodeRec_lt_4096 {buf : List Nat} (hb : ∀ x ∈ buf, x < 256) :
    ∀ (n i : Nat) (cs cs2 : List (Nat × Nat)),
    (∀ p ∈ cs, p.1 < 4096 ∧ p.2 < 4096) →
    decodeRec buf cs i n = Except.ok cs2 →
    ∀ p ∈ cs2, p.1 < 4096 ∧ p.2 < 4096 := by
  intro n
  induction n with
  | zero =>
    intro i cs cs2 hcs h
    simp only [decodeRec] at h
    cases h
    exact hcs
  | succ n ih =>
    intro i cs cs2 hcs h
    simp only [decodeRec] at h
    cases hdp : decodePoint buf i with
    | error e => rw [hdp] at h; cases h
    | ok xy =>
      rw [hdp] at h
      simp only [bind, Except.bind, setCoord] at h
      by_cases hlen : i < cs.length
      · rw [if_pos hlen] at h
        have hxy := decodePoint_lt_4096 hb hdp
        refine ih (i + 1) (cs.set i xy) cs2 ?_ h
        intro p hp
        rcases List.mem_or_eq_of_mem_set hp with hmem | rfl
        · exact hcs p hmem
        · exact hxy
      · rw [if_neg hlen] at h
        cases h

/-- C6 amended: `read_touch_data` masks each coordinate to 12 bits, so
every stored coordinate lies in [0, 4095] after a successful poll with
byte-valued bus data (given it held before); it is not clamped to the
native 240×320 bounds. -/
theorem c6_amended_coords_masked_to_12_bits (t : TouchState)
    (busCount : Except String (List Nat))
    (busXY : Nat → Except String (List Nat)) (t2 : TouchState)
    (hinit : ∀ p ∈ t.coordinates, p.1 < 4096 ∧ p.2 < 4096)
    (hbytes : ∀ n l, busXY n = Except.ok l → ∀ b ∈ l, b < 256)
    (h : readTouchData t busCount busXY = Except.ok t2) :
    ∀ p ∈ t2.coordinates, p.1 < 4096 ∧ p.2 < 4096 := by
  unfold readTouchData at h
  cases busCount with
  | error e => cases h
  | ok buf =>
    cases buf with
    | nil => cases h; exact hinit
    | cons b0 rest =>
      dsimp only at h
      by_cases hb0 : b0 = 0
      · rw [if_pos hb0] at h
        cases h
        exact hinit
      · rw [if_neg hb0] at h
        cases hxy : busXY (6 * b0) with
        | error e => rw [hxy] at h; cases h
        | ok buf2 =>
          rw [hxy] at h
          dsimp only at h
          have hbuf2 : ∀ x ∈ buf2, x < 256 := hbytes _ _ hxy
          cases buf2 with
          | nil =>
            cases h
            intro p hp
            simp only [List.mem_cons, List.not_mem_nil, or_false] at hp
            rcases hp with rfl | rfl <;> exact ⟨by decide, by decide⟩
          | cons c0 crest =>
            dsimp only at h
            cases hdec : decodeRec (c0 :: crest) [(0, 0), (0, 0)] 0 b0 with
            | error e => rw [hdec] at h; cases h
            | ok coords =>
              rw [hdec] at h
              cases h
              exact decodeRec_lt_4096 hbuf2 b0 0 [(0, 0), (0, 0)] coords
                (by decide) hdec

/-- C6 amended witness: the (4095, 256) read satisfies the hypotheses,
and the resulting coordinates are 12-bit values. -/
theorem c6_amended_coords_masked_to_12_bits_witness :
    ((∀ p ∈ touch0.coordinates, p.1 < 4096 ∧ p.2 < 4096) ∧
      (∀ n l, (fun _ : Nat => Except.ok (ε := String) touchBlock4095) n =
          Except.ok l → ∀ b ∈ l, b < 256) ∧
      readTouchData touch0 (Except.ok [1])
          (fun _ => Except.ok touchBlock4095) =
        Except.ok { coordinates := [(4095, 256), (0, 0)], pointCount := 1 }) ∧
    ∀ p ∈ ({ coordinates := [(4095, 256), (0, 0)], pointCount := 1 } :
        TouchState).coordinates, p.1 < 4096 ∧ p.2 < 4096 := by
  have hbytes : ∀ n l, (fun _ : Nat => Except.ok (ε := String) touchBlock4095) n =
      Except.ok l → ∀ b ∈ l, b < 256 := by
    intro n l h
    cases h
    decide
  exact ⟨⟨by decide, hbytes, rfl⟩,
    c6_amended_coords_masked_to_12_bits touch0 (Except.ok [1])
      (fun _ => Except.ok touchBlock4095)
      { coordinates := [(4095, 256), (0, 0)], pointCount := 1 }
      (by decide) hbytes rfl⟩

end PiMonitor
